import Mathlib

/-!
Shallow embedding of `src/PyBayesAB/conjugated_priors/bernoulli.py`
(class `BaysBernoulli`): the Bernoulli-likelihood / Beta-prior conjugate
engine for Bayesian A/B testing.

Numbers (Python ints and floats, mixed in the `dtype="object"` ledgers)
are modelled as rationals `ℚ`; exceptions are modelled with `Except Err`.
The randomness of `scipy.stats.bernoulli.rvs` is modelled by passing the
list of draw outcomes explicitly.
-/

/-- Python exceptions raised by the code paths under study.
`priorTypeErr` models the `SyntaxError` raised by `__init__` on an
unrecognised prior name, `valueErr` models `ValueError` (raised by
`add_data` on a missing group tag and by scipy/numpy on an invalid
Bernoulli probability or a negative sample size), `attrErr` models
`AttributeError` (e.g. `None.append`), `nameErr` models
`UnboundLocalError` (a branch that leaves `data` unbound), and
`indexErr` models `IndexError` (2-D indexing of an empty array). -/
inductive Err where
  | priorTypeErr : Err
  | valueErr : Err
  | attrErr : Err
  | nameErr : Err
  | indexErr : Err
deriving DecidableEq, Repr

instance exceptDecidableEq {ε α : Type} [DecidableEq ε] [DecidableEq α] :
    DecidableEq (Except ε α) := fun x y =>
  match x, y with
  | Except.ok a, Except.ok b =>
    if h : a = b then isTrue (by rw [h])
    else isFalse (fun hc => h (Except.ok.inj hc))
  | Except.error e, Except.error f =>
    if h : e = f then isTrue (by rw [h])
    else isFalse (fun hc => h (Except.error.inj hc))
  | Except.ok _, Except.error _ => isFalse (fun hc => Except.noConfusion hc)
  | Except.error _, Except.ok _ => isFalse (fun hc => Except.noConfusion hc)

/-- One row of the pandas dataframe passed to `add_data`: the group tag
column plus the batch fields (hits, fails). -/
structure Row where
  group : String
  hits : ℚ
  fails : ℚ
deriving DecidableEq, Repr

/-- The mutable state of a `BaysBernoulli` instance: the chosen prior
pseudo-counts `self.prior`, the two group ledgers `self.dataA` and
`self.dataB` (lists of `[hits, fails]` batches, seeded with the prior),
and the dataframe slot `self.data` (initially `None`). -/
structure BaysState where
  prior : ℚ × ℚ
  dataA : List (ℚ × ℚ)
  dataB : List (ℚ × ℚ)
  data : Option (List Row)
deriving DecidableEq, Repr

/-- `BaysBernoulli.__init__`: resolve the named prior to its pseudo-count
pair (raising `SyntaxError` for an unrecognised name, modelled as
`Err.priorTypeErr`), then seed both group ledgers with it and set the
dataframe slot to `None`. -/
def BaysBernoulli_init (prior_type : String) : Except Err BaysState :=
  if prior_type = "Bayes-Laplace" then
    Except.ok { prior := (1, 1), dataA := [(1, 1)], dataB := [(1, 1)], data := none }
  else if prior_type = "Jeffreys" then
    Except.ok { prior := (1/2, 1/2), dataA := [(1/2, 1/2)], dataB := [(1/2, 1/2)], data := none }
  else if prior_type = "Neutral" then
    Except.ok { prior := (1/3, 1/3), dataA := [(1/3, 1/3)], dataB := [(1/3, 1/3)], data := none }
  else if prior_type = "Haldane" then
    Except.ok { prior := (1/1000, 1/1000), dataA := [(1/1000, 1/1000)],
                dataB := [(1/1000, 1/1000)], data := none }
  else
    Except.error Err.priorTypeErr

/-- The state of a fresh `BaysBernoulli()` instance with the default
Bayes-Laplace prior. -/
def freshBL : BaysState :=
  { prior := (1, 1), dataA := [(1, 1)], dataB := [(1, 1)], data := none }

/-- `BaysBernoulli.add_data`: checks that both tags "A" and "B" occur in
the group column (else `ValueError`), then stores the dataframe and
extends each group ledger with that group's rows (group column dropped). -/
def add_data (s : BaysState) (df : List Row) : Except Err BaysState :=
  if ¬ ("A" ∈ df.map Row.group ∧ "B" ∈ df.map Row.group) then
    Except.error Err.valueErr
  else
    Except.ok { s with
      data := some df,
      dataA := s.dataA ++ (df.filter (fun r => r.group = "A")).map (fun r => (r.hits, r.fails)),
      dataB := s.dataB ++ (df.filter (fun r => r.group = "B")).map (fun r => (r.hits, r.fails)) }

/-- `BaysBernoulli.add_experiment`: the `group == "A"` branch executes
`self.data.append([hits, fails])` — the dataframe slot, not the ledger
`self.dataA`.  When `self.data` is `None` (any fresh instance) this
raises `AttributeError`; when it is a dataframe, `DataFrame.append`
returns a new frame that the code discards, so `self.dataA` is untouched
either way.  The `group == "B"` branch appends to `self.dataB`; any
other group falls through silently. -/
def add_experiment (s : BaysState) (hits fails : ℤ) (group : String) :
    Except Err BaysState :=
  if group = "A" then
    match s.data with
    | none => Except.error Err.attrErr
    | some _ => Except.ok s
  else if group = "B" then
    Except.ok { s with dataB := s.dataB ++ [((hits : ℚ), (fails : ℚ))] }
  else
    Except.ok s

/-- `np.count_nonzero` on the Bernoulli draw vector: the number of
successes among the trial outcomes. -/
def count_nonzero (draws : List Bool) : ℕ :=
  draws.count true

/-- `BaysBernoulli.add_rand_experiment`: `bernoulli.rvs(p, size=n)` is
modelled by the explicit outcome list `draws` (length `n`); scipy's
domain check raises `ValueError` when `p` is outside `[0, 1]`, and numpy
raises `ValueError` for a negative `size`, both before anything is
appended.  The success count and `n` minus it are appended to the ledger
of group "A" or "B"; any other group falls through silently. -/
def add_rand_experiment (s : BaysState) (n : ℤ) (p : ℚ) (group : String)
    (draws : List Bool) : Except Err BaysState :=
  if ¬ (0 ≤ p ∧ p ≤ 1) then Except.error Err.valueErr
  else if n < 0 then Except.error Err.valueErr
  else
    let hits : ℤ := count_nonzero draws
    if group = "A" then
      Except.ok { s with dataA := s.dataA ++ [((hits : ℚ), (n : ℚ) - (hits : ℚ))] }
    else if group = "B" then
      Except.ok { s with dataB := s.dataB ++ [((hits : ℚ), (n : ℚ) - (hits : ℚ))] }
    else
      Except.ok s

/-- The ledger selected by `post_parameters` / `make_cum_post_para`:
the explicit `data` argument when given, else the group's own ledger;
`none` when the group is neither "A" nor "B" and no data was passed
(the Python local `data` then stays `None` or unbound). -/
def select_data (s : BaysState) (data : Option (List (ℚ × ℚ))) (group : String) :
    Option (List (ℚ × ℚ)) :=
  match data with
  | some d => some d
  | none =>
    if group = "A" then some s.dataA
    else if group = "B" then some s.dataB
    else none

/-- `BaysBernoulli.post_parameters`: `np.sum` over the hits column and
over the fails column of the selected ledger.  An unselectable ledger
(`data` still `None`) fails on `np.array(None)` with `ValueError`; an
empty ledger gives a 1-D empty array whose 2-D indexing raises
`IndexError`. -/
def post_parameters (s : BaysState) (data : Option (List (ℚ × ℚ))) (group : String) :
    Except Err (ℚ × ℚ) :=
  match select_data s data group with
  | none => Except.error Err.valueErr
  | some [] => Except.error Err.indexErr
  | some d => Except.ok ((d.map Prod.fst).sum, (d.map Prod.snd).sum)

/-- `BaysBernoulli.post_pred`: `a / (a + b)` for the posterior
parameters `(a, b)`. -/
def post_pred (s : BaysState) (data : Option (List (ℚ × ℚ))) (group : String) :
    Except Err ℚ :=
  match post_parameters s data group with
  | Except.error e => Except.error e
  | Except.ok (a, b) => Except.ok (a / (a + b))

/-- `np.cumsum`: running prefix sums, entry `i` is the sum of the first
`i + 1` entries. -/
def cumsum : List ℚ → List ℚ
  | [] => []
  | x :: xs => x :: (cumsum xs).map (fun y => x + y)

/-- `BaysBernoulli.make_cum_post_para`: select the group's own ledger
("A" or "B"; any other group leaves the local `data` unbound, raising
`UnboundLocalError`), then return the cumulative sums of the hits column
and of the fails column. -/
def make_cum_post_para (s : BaysState) (group : String) :
    Except Err (List ℚ × List ℚ) :=
  if group = "A" then
    Except.ok (cumsum (s.dataA.map Prod.fst), cumsum (s.dataA.map Prod.snd))
  else if group = "B" then
    Except.ok (cumsum (s.dataB.map Prod.fst), cumsum (s.dataB.map Prod.snd))
  else
    Except.error Err.nameErr

-- Helper lemmas about `cumsum`.

theorem cumsum_length (l : List ℚ) : (cumsum l).length = l.length := by
  induction l with
  | nil => rfl
  | cons x xs ih => simp [cumsum, ih]

theorem getD_map_add (x : ℚ) (l : List ℚ) (i : ℕ) (h : i < l.length) :
    (l.map (fun y => x + y)).getD i 0 = x + l.getD i 0 := by
  induction l generalizing i with
  | nil => simp at h
  | cons z zs ih =>
    cases i with
    | zero => simp
    | succ j =>
      simp only [List.map_cons, List.getD_cons_succ]
      exact ih j (by simpa using h)

theorem cumsum_getD (l : List ℚ) (i : ℕ) (h : i < l.length) :
    (cumsum l).getD i 0 = (l.take (i + 1)).sum := by
  induction l generalizing i with
  | nil => simp at h
  | cons x xs ih =>
    cases i with
    | zero => simp [cumsum]
    | succ j =>
      have hj : j < xs.length := by simpa using h
      simp only [cumsum, List.getD_cons_succ, List.take_succ_cons, List.sum_cons]
      rw [getD_map_add x (cumsum xs) j (by simpa [cumsum_length] using hj), ih j hj]

-- Selection and aggregation helper lemmas.

theorem select_data_A (s : BaysState) : select_data s none "A" = some s.dataA := rfl

theorem select_data_B (s : BaysState) : select_data s none "B" = some s.dataB := rfl

theorem post_parameters_eq_sums (s : BaysState) (data : Option (List (ℚ × ℚ)))
    (g : String) (d : List (ℚ × ℚ)) (hsel : select_data s data g = some d)
    (hd : d ≠ []) :
    post_parameters s data g =
      Except.ok ((d.map Prod.fst).sum, (d.map Prod.snd).sum) := by
  cases d with
  | nil => exact absurd rfl hd
  | cons x xs => simp [post_parameters, hsel]

/-- C1: the specification's scenario — fresh Bayes-Laplace instance,
`add_experiment(8, 2)` for group "A", then posterior parameters (9, 3)
with mean 0.75 — fails on the code: the group-"A" branch of
`add_experiment` appends to the dataframe slot `self.data` (still `None`)
instead of `self.dataA`, so the call raises `AttributeError`, the
group-A ledger keeps only the seed, and `post_parameters` /`post_pred`
still return (1, 1) and 1/2. -/
theorem C1_add_experiment_groupA_bug :
    BaysBernoulli_init "Bayes-Laplace" = Except.ok freshBL ∧
    add_experiment freshBL 8 2 "A" = Except.error Err.attrErr ∧
    post_parameters freshBL none "A" = Except.ok (1, 1) ∧
    post_pred freshBL none "A" = Except.ok (1/2) := by
  refine ⟨rfl, rfl, ?_, ?_⟩
  · simp [post_parameters, select_data, freshBL]
  · simp [post_pred, post_parameters, select_data, freshBL]
    norm_num

/-- A fresh state whose two ledgers hold exactly the seed `(q, q)`. -/
def seeded (q : ℚ) : BaysState :=
  { prior := (q, q), dataA := [(q, q)], dataB := [(q, q)], data := none }

/-- C7: each of the four recognised prior names seeds both group ledgers
with exactly one batch equal to its pseudo-count pair — Bayes-Laplace
(1, 1), Jeffreys (1/2, 1/2), Neutral (1/3, 1/3), Haldane
(1/1000, 1/1000) — and `post_parameters` of either group on that
seed-only ledger returns the preset exactly. -/
theorem C7_presets :
    (BaysBernoulli_init "Bayes-Laplace" = Except.ok (seeded 1) ∧
      post_parameters (seeded 1) none "A" = Except.ok (1, 1) ∧
      post_parameters (seeded 1) none "B" = Except.ok (1, 1)) ∧
    (BaysBernoulli_init "Jeffreys" = Except.ok (seeded (1/2)) ∧
      post_parameters (seeded (1/2)) none "A" = Except.ok (1/2, 1/2) ∧
      post_parameters (seeded (1/2)) none "B" = Except.ok (1/2, 1/2)) ∧
    (BaysBernoulli_init "Neutral" = Except.ok (seeded (1/3)) ∧
      post_parameters (seeded (1/3)) none "A" = Except.ok (1/3, 1/3) ∧
      post_parameters (seeded (1/3)) none "B" = Except.ok (1/3, 1/3)) ∧
    (BaysBernoulli_init "Haldane" = Except.ok (seeded (1/1000)) ∧
      post_parameters (seeded (1/1000)) none "A" = Except.ok (1/1000, 1/1000) ∧
      post_parameters (seeded (1/1000)) none "B" = Except.ok (1/1000, 1/1000)) := by
  refine ⟨⟨rfl, ?_, ?_⟩, ⟨rfl, ?_, ?_⟩, ⟨rfl, ?_, ?_⟩, ⟨rfl, ?_, ?_⟩⟩ <;>
    simp [post_parameters, select_data, seeded]

/-- C3: construction succeeds on each of the four recognised prior names
and fails with the unrecognised-prior error (the `SyntaxError` raised by
`__init__`, playing the specification's configuration-error role) on
every other name. -/
theorem C3_prior_names (name : String) :
    (name = "Bayes-Laplace" ∨ name = "Jeffreys" ∨ name = "Neutral" ∨ name = "Haldane" →
      ∃ s, BaysBernoulli_init name = Except.ok s) ∧
    (name ≠ "Bayes-Laplace" → name ≠ "Jeffreys" → name ≠ "Neutral" → name ≠ "Haldane" →
      BaysBernoulli_init name = Except.error Err.priorTypeErr) := by
  constructor
  · rintro (h | h | h | h) <;> subst h <;> exact ⟨_, rfl⟩
  · intro h1 h2 h3 h4
    simp [BaysBernoulli_init, h1, h2, h3, h4]

theorem C3_prior_names_witness :
    BaysBernoulli_init "Flat" = Except.error Err.priorTypeErr ∧
    ∃ s, BaysBernoulli_init "Jeffreys" = Except.ok s :=
  ⟨(C3_prior_names "Flat").2 (by decide) (by decide) (by decide) (by decide),
   (C3_prior_names "Jeffreys").1 (Or.inr (Or.inl rfl))⟩

/-- C2 counterexample: `add_experiment(-1, 5)` for group "B" on a fresh
instance raises no error at all and appends the negative batch — the
claimed negative-count validation does not exist in the code. -/
theorem C2_counterexample :
    add_experiment freshBL (-1) 5 "B" =
      Except.ok { prior := (1, 1), dataA := [(1, 1)],
                  dataB := [(1, 1), (-1, 5)], data := none } := by
  simp [add_experiment, freshBL]

/-- C2 amended: `add_experiment` performs no validation of its counts.
For every `hits`, `fails` (negative or not) the group-"B" call appends
the batch unchanged, and the group-"A" call on a state with no stored
dataframe fails with `AttributeError` (the dataframe-slot bug),
independent of the sign of the arguments. -/
theorem C2_add_experiment_no_check (s : BaysState) (hits fails : ℤ) :
    add_experiment s hits fails "B" =
      Except.ok { s with dataB := s.dataB ++ [((hits : ℚ), (fails : ℚ))] } ∧
    (s.data = none → add_experiment s hits fails "A" = Except.error Err.attrErr) := by
  constructor
  · simp [add_experiment]
  · intro h
    simp [add_experiment, h]

theorem C2_add_experiment_no_check_witness :
    add_experiment freshBL (-1) 5 "B" =
      Except.ok { prior := (1, 1), dataA := [(1, 1)],
                  dataB := [(1, 1), (-1, 5)], data := none } ∧
    add_experiment freshBL (-1) 5 "A" = Except.error Err.attrErr := by
  have h := C2_add_experiment_no_check freshBL (-1) 5
  refine ⟨h.1.trans ?_, h.2 rfl⟩
  simp [freshBL]

/-- C4: on any non-empty ledger, `post_parameters` returns exactly the
componentwise sum of all batches, and the aggregate is invariant under
any permutation of the batches after the seed. -/
theorem C4_post_parameters_sum (s : BaysState) (seed : ℚ × ℚ)
    (rest rest2 : List (ℚ × ℚ)) (hA : s.dataA = seed :: rest)
    (hperm : rest.Perm rest2) :
    post_parameters s none "A" =
      Except.ok (((seed :: rest).map Prod.fst).sum, ((seed :: rest).map Prod.snd).sum) ∧
    post_parameters { s with dataA := seed :: rest2 } none "A" =
      post_parameters s none "A" := by
  have hsel : select_data s none "A" = some (seed :: rest) := by
    rw [select_data_A, hA]
  have h1 := post_parameters_eq_sums s none "A" (seed :: rest) hsel (by simp)
  have hsel2 : select_data { s with dataA := seed :: rest2 } none "A" =
      some (seed :: rest2) := rfl
  have h2 := post_parameters_eq_sums { s with dataA := seed :: rest2 } none "A"
    (seed :: rest2) hsel2 (by simp)
  have hperm1 : (seed :: rest).Perm (seed :: rest2) := hperm.cons seed
  refine ⟨h1, h2.trans ?_⟩
  rw [h1, ((hperm1.map Prod.fst).sum_eq).symm, ((hperm1.map Prod.snd).sum_eq).symm]

/-- A sample state used to instantiate the quantified theorems. -/
def wState : BaysState :=
  { prior := (1, 1), dataA := [(1, 1), (2, 3), (4, 5)], dataB := [(1, 1)], data := none }

theorem C4_post_parameters_sum_witness :
    post_parameters wState none "A" = Except.ok (7, 9) ∧
    post_parameters { wState with dataA := [(1, 1), (4, 5), (2, 3)] } none "A" =
      post_parameters wState none "A" := by
  have h := C4_post_parameters_sum wState (1, 1) [(2, 3), (4, 5)] [(4, 5), (2, 3)] rfl
    (List.Perm.swap (4, 5) (2, 3) [])
  refine ⟨h.1.trans ?_, h.2⟩
  simp
  norm_num

/-- C5: whenever the aggregated posterior parameters `(a, b)` are both
positive, `post_pred` returns exactly `a / (a + b)`, which lies strictly
between 0 and 1. -/
theorem C5_post_pred_mean (s : BaysState) (data : Option (List (ℚ × ℚ)))
    (group : String) (a b : ℚ)
    (hab : post_parameters s data group = Except.ok (a, b))
    (ha : 0 < a) (hb : 0 < b) :
    post_pred s data group = Except.ok (a / (a + b)) ∧
    0 < a / (a + b) ∧ a / (a + b) < 1 := by
  refine ⟨?_, ?_, ?_⟩
  · simp [post_pred, hab]
  · exact div_pos ha (by linarith)
  · rw [div_lt_one (by linarith)]
    linarith

theorem C5_post_pred_mean_witness :
    post_pred freshBL (some [(1, 1), (8, 2)]) "A" = Except.ok (3/4) ∧
    0 < (3 : ℚ)/4 ∧ (3 : ℚ)/4 < 1 := by
  have h := C5_post_pred_mean freshBL (some [(1, 1), (8, 2)]) "A" 9 3
    (by simp [post_parameters, select_data]; norm_num) (by norm_num) (by norm_num)
  refine ⟨h.1.trans ?_, by norm_num, by norm_num⟩
  norm_num

/-- C6: for either group, `make_cum_post_para` returns two sequences of
length equal to the group ledger's length whose entry `i` is the
componentwise sum of the first `i + 1` batches (seed included); in
particular the final entries equal `post_parameters` on the full ledger. -/
theorem C6_cum_parameters (s : BaysState) (g : String) (d : List (ℚ × ℚ))
    (hg : (g = "A" ∧ d = s.dataA) ∨ (g = "B" ∧ d = s.dataB)) (hd : d ≠ []) :
    ∃ ca cb, make_cum_post_para s g = Except.ok (ca, cb) ∧
      ca.length = d.length ∧ cb.length = d.length ∧
      (∀ i, i < d.length →
        ca.getD i 0 = ((d.take (i + 1)).map Prod.fst).sum ∧
        cb.getD i 0 = ((d.take (i + 1)).map Prod.snd).sum) ∧
      post_parameters s none g =
        Except.ok (ca.getD (d.length - 1) 0, cb.getD (d.length - 1) 0) := by
  have hlen : 0 < d.length := List.length_pos.mpr hd
  have hget : ∀ i, i < d.length →
      (cumsum (d.map Prod.fst)).getD i 0 = ((d.take (i + 1)).map Prod.fst).sum ∧
      (cumsum (d.map Prod.snd)).getD i 0 = ((d.take (i + 1)).map Prod.snd).sum := by
    intro i hi
    constructor
    · rw [cumsum_getD (d.map Prod.fst) i (by simpa using hi), List.map_take]
    · rw [cumsum_getD (d.map Prod.snd) i (by simpa using hi), List.map_take]
  have hlast1 : (cumsum (d.map Prod.fst)).getD (d.length - 1) 0 = (d.map Prod.fst).sum := by
    have h := (hget (d.length - 1) (by omega)).1
    rwa [Nat.sub_add_cancel hlen, List.take_length] at h
  have hlast2 : (cumsum (d.map Prod.snd)).getD (d.length - 1) 0 = (d.map Prod.snd).sum := by
    have h := (hget (d.length - 1) (by omega)).2
    rwa [Nat.sub_add_cancel hlen, List.take_length] at h
  obtain ⟨hgeq, hdeq⟩ | ⟨hgeq, hdeq⟩ := hg
  · subst hgeq
    refine ⟨cumsum (d.map Prod.fst), cumsum (d.map Prod.snd), ?_, ?_, ?_, hget, ?_⟩
    · rw [hdeq]; rfl
    · simp [cumsum_length]
    · simp [cumsum_length]
    · rw [post_parameters_eq_sums s none "A" d (by rw [select_data_A, hdeq]) hd,
        hlast1, hlast2]
  · subst hgeq
    refine ⟨cumsum (d.map Prod.fst), cumsum (d.map Prod.snd), ?_, ?_, ?_, hget, ?_⟩
    · rw [hdeq]; rfl
    · simp [cumsum_length]
    · simp [cumsum_length]
    · rw [post_parameters_eq_sums s none "B" d (by rw [select_data_B, hdeq]) hd,
        hlast1, hlast2]

theorem C6_cum_parameters_witness :
    ∃ ca cb, make_cum_post_para wState "A" = Except.ok (ca, cb) ∧
      ca.length = wState.dataA.length ∧ cb.length = wState.dataA.length ∧
      (∀ i, i < wState.dataA.length →
        ca.getD i 0 = ((wState.dataA.take (i + 1)).map Prod.fst).sum ∧
        cb.getD i 0 = ((wState.dataA.take (i + 1)).map Prod.snd).sum) ∧
      post_parameters wState none "A" =
        Except.ok (ca.getD (wState.dataA.length - 1) 0,
                   cb.getD (wState.dataA.length - 1) 0) :=
  C6_cum_parameters wState "A" wState.dataA (Or.inl ⟨rfl, rfl⟩) (by simp [wState])

/-- C8: `add_data` fails with `ValueError` when tag "A" or "B" is missing
from the group column — the check precedes every mutation, so both
ledgers are untouched; when both tags occur, each group ledger is
extended with exactly that group's rows (batch fields only), in order. -/
theorem C8_add_data (s : BaysState) (df : List Row) :
    (¬ ("A" ∈ df.map Row.group ∧ "B" ∈ df.map Row.group) →
      add_data s df = Except.error Err.valueErr) ∧
    ("A" ∈ df.map Row.group ∧ "B" ∈ df.map Row.group →
      add_data s df = Except.ok { s with
        data := some df,
        dataA := s.dataA ++
          (df.filter (fun r => r.group = "A")).map (fun r => (r.hits, r.fails)),
        dataB := s.dataB ++
          (df.filter (fun r => r.group = "B")).map (fun r => (r.hits, r.fails)) }) := by
  constructor
  · intro h
    rw [add_data, if_pos h]
  · intro h
    rw [add_data, if_neg (not_not_intro h)]

theorem C8_add_data_witness :
    add_data freshBL [⟨"A", 3, 4⟩] = Except.error Err.valueErr ∧
    add_data freshBL [⟨"A", 3, 4⟩, ⟨"B", 5, 6⟩] =
      Except.ok { prior := (1, 1), dataA := [(1, 1), (3, 4)], dataB := [(1, 1), (5, 6)],
                  data := some [⟨"A", 3, 4⟩, ⟨"B", 5, 6⟩] } := by
  have h1 := (C8_add_data freshBL [⟨"A", 3, 4⟩]).1 (by decide)
  have h2 := (C8_add_data freshBL [⟨"A", 3, 4⟩, ⟨"B", 5, 6⟩]).2 (by decide)
  refine ⟨h1, h2.trans ?_⟩
  simp [freshBL]

/-- C9: with `p ∈ [0, 1]` and the draw vector of length `n`,
`add_rand_experiment` appends the single batch `(k, n − k)` — `k` the
number of successful draws, `0 ≤ k ≤ n` — to the named group's ledger;
with `p` outside `[0, 1]` or `n < 0` it fails with `ValueError` (scipy's
domain check, numpy's size check) and appends nothing. -/
theorem C9_add_rand_experiment (s : BaysState) (n : ℤ) (p : ℚ) (g : String)
    (draws : List Bool) :
    ((draws.length : ℤ) = n → 0 ≤ p ∧ p ≤ 1 →
      (count_nonzero draws : ℤ) ≤ n ∧
      (g = "A" → add_rand_experiment s n p g draws =
        Except.ok { s with dataA := s.dataA ++
          [((count_nonzero draws : ℚ), (n : ℚ) - (count_nonzero draws : ℚ))] }) ∧
      (g = "B" → add_rand_experiment s n p g draws =
        Except.ok { s with dataB := s.dataB ++
          [((count_nonzero draws : ℚ), (n : ℚ) - (count_nonzero draws : ℚ))] })) ∧
    (p < 0 ∨ 1 < p ∨ n < 0 →
      add_rand_experiment s n p g draws = Except.error Err.valueErr) := by
  constructor
  · intro hlen hp
    have hn : ¬ n < 0 := by
      rw [← hlen]
      exact not_lt.mpr (Int.ofNat_nonneg draws.length)
    have hk : (count_nonzero draws : ℤ) ≤ n := by
      rw [← hlen]
      exact_mod_cast List.count_le_length true draws
    refine ⟨hk, ?_, ?_⟩ <;> intro hgeq <;> subst hgeq <;>
      simp [add_rand_experiment, hp, hn]
  · intro h
    rcases h with hp | hp | hn
    · have hc : ¬ (0 ≤ p ∧ p ≤ 1) := fun hc => absurd hp (not_lt.mpr hc.1)
      simp [add_rand_experiment, hc]
    · have hc : ¬ (0 ≤ p ∧ p ≤ 1) := fun hc => absurd hp (not_lt.mpr hc.2)
      simp [add_rand_experiment, hc]
    · by_cases hc : 0 ≤ p ∧ p ≤ 1
      · simp [add_rand_experiment, hc, hn]
      · simp [add_rand_experiment, hc]

theorem C9_add_rand_experiment_witness :
    ((count_nonzero [true, false, true] : ℤ) ≤ 3 ∧
      add_rand_experiment freshBL 3 (1/2) "A" [true, false, true] =
        Except.ok { prior := (1, 1), dataA := [(1, 1), (2, 1)], dataB := [(1, 1)],
                    data := none }) ∧
    add_rand_experiment freshBL (-1) (1/2) "A" [] = Except.error Err.valueErr := by
  have h := (C9_add_rand_experiment freshBL 3 (1/2) "A" [true, false, true]).1
    (by decide) (by norm_num)
  have herr := (C9_add_rand_experiment freshBL (-1) (1/2) "A" []).2
    (Or.inr (Or.inr (by norm_num)))
  refine ⟨⟨h.1, (h.2.1 rfl).trans ?_⟩, herr⟩
  simp [freshBL, count_nonzero]
  norm_num

/-- C10: for any group tag other than "A" and "B", both append operations
fall through their group dispatch without raising and return the state
unchanged — a silent no-op (for the simulated one, once its argument
validation `p ∈ [0, 1]`, `n ≥ 0` passes). -/
theorem C10_unknown_group_noop (s : BaysState) (hits fails : ℤ) (n : ℤ) (p : ℚ)
    (draws : List Bool) (g : String) (hgA : g ≠ "A") (hgB : g ≠ "B")
    (hp : 0 ≤ p ∧ p ≤ 1) (hn : 0 ≤ n) :
    add_experiment s hits fails g = Except.ok s ∧
    add_rand_experiment s n p g draws = Except.ok s := by
  constructor
  · simp [add_experiment, hgA, hgB]
  · simp [add_rand_experiment, hp, hgA, hgB, not_lt.mpr hn]

theorem C10_unknown_group_noop_witness :
    add_experiment freshBL 3 4 "C" = Except.ok freshBL ∧
    add_rand_experiment freshBL 2 (1/2) "C" [true, true] = Except.ok freshBL :=
  C10_unknown_group_noop freshBL 3 4 2 (1/2) [true, true] "C"
    (by decide) (by decide) (by norm_num) (by norm_num)
